import Mathlib

/-!
Shallow embedding of `src/server.py` (the DeerFlow / academic-agent server
launcher script) and proofs about its logging/lifecycle bootstrap behaviour.

The script is straight-line Python: module-level logging setup, signal
handler registration, argument parsing, log-file reconciliation, level
application and a guarded call to the external server entry point.  We embed
the process-wide logging state as an explicit record, and every mutation of
that state additionally appends an `Event` to a trace so that ordering
properties (what happened before what) are provable.
-/

namespace AcademicAgent

/-- Python numeric logging level DEBUG. -/
def DEBUG : Nat := 10

/-- Python numeric logging level INFO. -/
def INFO : Nat := 20

/-- Python numeric logging level WARNING. -/
def WARNING : Nat := 30

/-- Python numeric logging level ERROR. -/
def ERROR : Nat := 40

/-- Python numeric logging level CRITICAL. -/
def CRITICAL : Nat := 50

/-- The kind of a logging handler attached to the root logger: the console
`StreamHandler(sys.stdout)` or a `RotatingFileHandler(path, maxBytes, backupCount)`. -/
inductive HandlerKind
| stream
| rotatingFile (path : String) (maxBytes : Nat) (backupCount : Nat)
deriving DecidableEq

/-- A logging handler: its kind, its minimum level (`setLevel`) and its
formatter (`setFormatter`, format string plus date format). -/
structure Handler where
  kind : HandlerKind
  level : Nat
  fmt : String
  datefmt : String
deriving DecidableEq

/-- Observable events of the script, in program order: directory creation,
root/handler mutations, and log lines emitted through the pipeline. -/
inductive Event
| mkdirCall (path : String)
| setRootLevel (lvl : Nat)
| clearHandlers
| addHandler (k : HandlerKind)
| removeHandler (k : HandlerKind)
| closeHandler (k : HandlerKind)
| logInfo (msg : String)
| logError (msg : String)
| setHandlerLevel (k : HandlerKind) (lvl : Nat)
| setNamedLevel (nm : String) (lvl : Nat)
deriving DecidableEq

/-- The process-wide logging state: the root logger level, the list of
handlers attached to the root logger, the explicitly-set levels of named
(non-root) loggers, and the trace of events so far. -/
structure LogState where
  rootLevel : Nat
  handlers : List Handler
  namedLevels : String → Option Nat
  events : List Event

/-- `root_logger.addHandler(h)` (source lines 38, 50, 149). -/
def addHandler (s : LogState) (h : Handler) : LogState :=
  { s with handlers := s.handlers ++ [h], events := s.events ++ [Event.addHandler h.kind] }

/-- `logger.info(msg)` at module/main level; appended to the trace. -/
def logInfoMsg (s : LogState) (m : String) : LogState :=
  { s with events := s.events ++ [Event.logInfo m] }

/-- `logger.error(msg)`; appended to the trace. -/
def logErrorMsg (s : LogState) (m : String) : LogState :=
  { s with events := s.events ++ [Event.logError m] }

/-- `logging.getLogger(nm).setLevel(lvl)` for a named (non-root) logger
(source lines 168-170). -/
def setNamed (s : LogState) (nm : String) (lvl : Nat) : LogState :=
  { s with namedLevels := fun m => if m = nm then some lvl else s.namedLevels m,
           events := s.events ++ [Event.setNamedLevel nm lvl] }

/-- The explicitly-set level of a named logger, if any. -/
def namedLevel (s : LogState) (nm : String) : Option Nat :=
  s.namedLevels nm

/-- `log_format` (source line 24). -/
def log_format : String := "%(asctime)s - %(name)s - %(levelname)s - %(message)s"

/-- `date_format` (source line 25). -/
def date_format : String := "%Y-%m-%d %H:%M:%S"

/-- The console handler attached at module level (source lines 35-38):
`StreamHandler(sys.stdout)` at level INFO with the shared formatter. -/
def console_handler : Handler :=
  { kind := HandlerKind.stream, level := INFO, fmt := log_format, datefmt := date_format }

/-- The default log file path `logs/academic-agent.log` (source line 41). -/
def default_log_file : String := "logs/academic-agent.log"

/-- The default rotating file handler attached at module level (source
lines 42-50): `RotatingFileHandler(log_file, maxBytes=10*1024*1024, backupCount=5)`
at level INFO with the shared formatter. -/
def file_handler : Handler :=
  { kind := HandlerKind.rotatingFile default_log_file (10 * 1024 * 1024) 5,
    level := INFO, fmt := log_format, datefmt := date_format }

/-- The module-level setup (source lines 20-50), run on import before
anything in the `__main__` block: create the `logs` directory, set the root
level to INFO, clear pre-existing handlers, attach the console handler and
the default rotating file handler. -/
def moduleInit (pre : LogState) : LogState :=
  let s1 : LogState := { pre with events := pre.events ++ [Event.mkdirCall ("logs")] }
  let s2 : LogState := { s1 with rootLevel := INFO, events := s1.events ++ [Event.setRootLevel INFO] }
  let s3 : LogState := { s2 with handlers := [], events := s2.events ++ [Event.clearHandlers] }
  addHandler (addHandler s3 console_handler) file_handler

/-- The interpreter-default root logger state before the script runs:
level WARNING, no handlers, no named levels, empty trace. -/
def freshState : LogState :=
  { rootLevel := WARNING, handlers := [], namedLevels := fun _ => none, events := [] }

/-- The logging state right after module import. -/
def initState : LogState := moduleInit freshState

/-- ASCII lowercase of a string: Python `str.lower()` on the ASCII values
used by this script (computable by structural recursion over the
characters). -/
def toLowerStr (s : String) : String := String.mk (s.data.map Char.toLower)

/-- ASCII uppercase of a string: Python `str.upper()` on the ASCII values
used by this script. -/
def toUpperStr (s : String) : String := String.mk (s.data.map Char.toUpper)

/-- Decimal value of a nonempty all-digit character list. -/
def digitsVal (l : List Char) : Option Nat :=
  match l with
  | [] => none
  | _ =>
    l.foldl
      (fun acc c =>
        match acc with
        | none => none
        | some n => if c.isDigit then some (n * 10 + (c.toNat - 48)) else none)
      (some 0)

/-- Python `int(v)` as called by argparse for `type=int`: an optional sign
followed by decimal digits (the underscore and surrounding-whitespace forms
Python also accepts are not modelled; no claim involves them). -/
def int_of_string (s : String) : Option Int :=
  match s.data with
  | '-' :: rest => (digitsVal rest).map (fun n => -(n : Int))
  | '+' :: rest => (digitsVal rest).map (fun n => (n : Int))
  | l => (digitsVal l).map (fun n => (n : Int))

/-- The parsed command-line arguments (the argparse namespace,
source lines 78-110). -/
structure Args where
  reload : Bool
  host : String
  port : Int
  log_level : String
  log_file : Option String
deriving DecidableEq

/-- The argparse defaults: `--reload` off, host `localhost`, port 8000,
log level `info`, log file absent (None). -/
def defaultArgs : Args :=
  { reload := false, host := "localhost", port := 8000,
    log_level := "info", log_file := none }

/-- The `choices` list of `--log-level` (source line 100). -/
def logLevelChoices : List String := ["debug", "info", "warning", "error", "critical"]

/-- Shallow model of `parser.parse_args()` over the flag schema of source
lines 78-110.  `--reload` is `store_true`; `--host` and `--log-file` take any
string; `--port` is `type=int` (any integer accepted, no range check);
`--log-level` is restricted to its `choices`.  Any parse failure models
argparse printing usage and raising `SystemExit(2)`. -/
def parse_args_from (a : Args) : List String → Except String Args
| [] => Except.ok a
| "--reload" :: rest => parse_args_from { a with reload := true } rest
| "--host" :: v :: rest => parse_args_from { a with host := v } rest
| "--port" :: v :: rest =>
    match int_of_string v with
    | some n => parse_args_from { a with port := n } rest
    | none => Except.error ("argument --port: invalid int value: " ++ v)
| "--log-level" :: v :: rest =>
    if v ∈ logLevelChoices then parse_args_from { a with log_level := v } rest
    else Except.error ("argument --log-level: invalid choice: " ++ v)
| "--log-file" :: v :: rest => parse_args_from { a with log_file := some v } rest
| other :: _ => Except.error ("unrecognized arguments: " ++ other)

/-- The truthy values of the DEBUG environment variable (source line 118). -/
def truthyDebug : List String := ["true", "1", "yes"]

/-- Source lines 117-121: `os.getenv("DEBUG", "").lower() in ("true", "1", "yes")`
forces the effective level to `debug`, otherwise the CLI value is used.
`debugEnv = none` models an unset environment variable (`getenv` default `""`). -/
def effective_log_level (debugEnv : Option String) (cli : String) : String :=
  if toLowerStr (debugEnv.getD ("")) ∈ truthyDebug then "debug" else cli

/-- Whether a handler is a `RotatingFileHandler` (the `isinstance` test of
source lines 128, 137, 155). -/
def isRotating (h : Handler) : Bool :=
  match h.kind with
  | HandlerKind.rotatingFile _ _ _ => true
  | HandlerKind.stream => false

/-- Number of rotating-file handlers attached to the root logger. -/
def countRotating (s : LogState) : Nat :=
  (s.handlers.filter isRotating).length

/-- Sources of filesystem failure the script can hit while reconfiguring the
file sink: `Path(p).parent.mkdir(parents=True, exist_ok=True)` and opening a
`RotatingFileHandler` at `p` (its constructor opens the file eagerly).
`mkdir_parents_ok p` states that creating the parent directories of `p`
succeeds; `open_ok p` states that opening the log file at `p` succeeds. -/
structure FileSys where
  mkdir_parents_ok : String → Bool
  open_ok : String → Bool

/-- A filesystem on which every operation succeeds. -/
def fsAll : FileSys := { mkdir_parents_ok := fun _ => true, open_ok := fun _ => true }

/-- A filesystem on which directories can be created but no log file can be
opened (an unwritable target). -/
def fsOpenFail : FileSys := { mkdir_parents_ok := fun _ => true, open_ok := fun _ => false }

/-- Result of a reconfiguration step: normal completion, or a Python
exception escaping (uncaught, since lines 124-149 sit outside the `try`),
carrying the logging state at raise time. -/
inductive ConfigResult
| ok (st : LogState)
| exn (msg : String) (st : LogState)

/-- The logging state held in a `ConfigResult`. -/
def ConfigResult.state : ConfigResult → LogState
| ConfigResult.ok st => st
| ConfigResult.exn _ st => st

/-- Source lines 127-130 and 136-139: iterate over a copy of
`root_logger.handlers`, and for every `RotatingFileHandler` call
`removeHandler` then `close()`.  Net effect: the rotating handlers are
dropped from the handler list (others keep their order) and a
remove/close event pair is traced for each. -/
def removeFileHandlers (s : LogState) : LogState :=
  { s with
    handlers := s.handlers.filter (fun h => !isRotating h),
    events := s.events ++
      (s.handlers.filter isRotating).flatMap
        (fun h => [Event.removeHandler h.kind, Event.closeHandler h.kind]) }

/-- Source lines 124-149: the `--log-file` reconciliation.  `none` (absent)
leaves the pipeline untouched; `some ""` disables file logging by removing
and closing every rotating handler; a non-empty path first creates the
parent directories, then removes and closes the old rotating handlers, then
constructs the new `RotatingFileHandler` (level INFO, shared formatter) and
attaches it.  `mkdir` or the handler constructor may raise; the exception
escapes with the state as of that moment.  (Configuring the not-yet-attached
new handler via `setLevel`/`setFormatter` mutates a local object only and is
folded into its construction.) -/
def configureLogFile (fs : FileSys) (lf : Option String) (s : LogState) : ConfigResult :=
  match lf with
  | none => ConfigResult.ok s
  | some p =>
    if p = "" then
      ConfigResult.ok (removeFileHandlers s)
    else
      if fs.mkdir_parents_ok p then
        let s1 : LogState := { s with events := s.events ++ [Event.mkdirCall p] }
        let s2 := removeFileHandlers s1
        if fs.open_ok p then
          ConfigResult.ok (addHandler s2
            { kind := HandlerKind.rotatingFile p (10 * 1024 * 1024) 5,
              level := INFO, fmt := log_format, datefmt := date_format })
        else
          ConfigResult.exn ("OSError: cannot open log file: " ++ p) s2
      else
        ConfigResult.exn ("OSError: cannot create parent directory of: " ++ p) s

/-- Source line 160: `getattr(logging, log_level.upper(), logging.INFO)`. -/
def numeric_level (s : String) : Nat :=
  if toUpperStr s = "DEBUG" then DEBUG
  else if toUpperStr s = "INFO" then INFO
  else if toUpperStr s = "WARNING" then WARNING
  else if toUpperStr s = "ERROR" then ERROR
  else if toUpperStr s = "CRITICAL" then CRITICAL
  else INFO

/-- Source lines 161-164: set the root logger level and then the level of
every attached handler to `lvl`. -/
def applyLevel (lvl : Nat) (s : LogState) : LogState :=
  let s1 : LogState := { s with rootLevel := lvl, events := s.events ++ [Event.setRootLevel lvl] }
  { s1 with handlers := s1.handlers.map (fun h => { h with level := lvl }),
            events := s1.events ++ s1.handlers.map (fun h => Event.setHandlerLevel h.kind lvl) }

/-- Source lines 167-171: when the effective level is debug, lower the
`src`, `langchain` and `langgraph` logger namespaces to DEBUG and log one
informational confirmation line. -/
def enableDebugNamespaces (s : LogState) : LogState :=
  let s1 := setNamed s ("src") DEBUG
  let s2 := setNamed s1 ("langchain") DEBUG
  let s3 := setNamed s2 ("langgraph") DEBUG
  logInfoMsg s3 ("DEBUG logging enabled for src, langchain, and langgraph packages - detailed diagnostic information will be logged")

/-- `h.baseFilename` of a file handler.  Python stores the absolute path
(`os.path.abspath`); path absolutization is not modelled, no claim depends
on the working-directory prefix. -/
def baseFilename (h : Handler) : String :=
  match h.kind with
  | HandlerKind.rotatingFile p _ _ => p
  | HandlerKind.stream => ""

/-- What the external `uvicorn.run` call does: return normally, or raise an
exception (an `Exception` subclass, the class caught by line 180). -/
inductive ServeBehavior
| returns
| raises (msg : String)
deriving DecidableEq

/-- Source lines 151-182: the `try` block.  Log the bind-address line and
the effective-level line; if a rotating file handler is attached, log its
path; apply the numeric effective level to the root logger and every
handler; if the effective level is debug, enable the namespace allow-list;
then call `uvicorn.run`.  If it raises, `except Exception` logs the error
and exits 1; if it returns, the script falls through and exits 0. -/
def tryBlock (args : Args) (lvl : String) (sb : ServeBehavior) (s : LogState) : LogState × Int :=
  let s1 := logInfoMsg s ("Starting DeerFlow API server on " ++ args.host ++ ":" ++ toString args.port)
  let s2 := logInfoMsg s1 ("Log level: " ++ toUpperStr lvl)
  let s3 : LogState :=
    match s2.handlers.filter isRotating with
    | [] => s2
    | h :: _ => logInfoMsg s2 ("Log file: " ++ baseFilename h)
  let s4 := applyLevel (numeric_level lvl) s3
  let s5 := if toLowerStr lvl = "debug" then enableDebugNamespaces s4 else s4
  match sb with
  | ServeBehavior.returns => (s5, 0)
  | ServeBehavior.raises m => (logErrorMsg s5 ("Failed to start server: " ++ m), 1)

/-- How a run of the script ends: a process exit with a code (normal fall
through, `sys.exit`, or argparse `SystemExit(2)`), or an uncaught
exception escaping the script (interpreter prints a traceback). -/
inductive Outcome
| exited (code : Int) (st : LogState)
| crashed (msg : String) (st : LogState)

/-- The final logging state of an outcome. -/
def Outcome.state : Outcome → LogState
| Outcome.exited _ st => st
| Outcome.crashed _ st => st

/-- The exit code of an outcome, when the process exited via `SystemExit`. -/
def Outcome.exitCode : Outcome → Option Int
| Outcome.exited c _ => some c
| Outcome.crashed _ _ => none

/-- Whether the run ended in an uncaught exception. -/
def Outcome.isCrashed : Outcome → Bool
| Outcome.exited _ _ => false
| Outcome.crashed _ _ => true

/-- The whole script run: module-level setup (before anything else), then
`parse_args` (a failure is argparse usage + `SystemExit(2)`), then the
reload/effective-level resolution, then the `--log-file` reconciliation
(an exception there is uncaught), then the `try` block around
`uvicorn.run`. -/
def runMain (argv : List String) (debugEnv : Option String) (fs : FileSys)
    (sb : ServeBehavior) : Outcome :=
  let st := moduleInit freshState
  match parse_args_from defaultArgs argv with
  | Except.error _ => Outcome.exited 2 st
  | Except.ok args =>
    match configureLogFile fs args.log_file st with
    | ConfigResult.exn m st2 => Outcome.crashed m st2
    | ConfigResult.ok st2 =>
      Outcome.exited (tryBlock args (effective_log_level debugEnv args.log_level) sb st2).2
                     (tryBlock args (effective_log_level debugEnv args.log_level) sb st2).1

/-- Source lines 112-115: `reload = False; if args.reload: reload = True`.
The value is only forwarded to the external `uvicorn.run` call. -/
def reloadSetting (args : Args) : Bool :=
  if args.reload then true else false

/-- POSIX signal number of SIGTERM. -/
def SIGTERM : Nat := 15

/-- POSIX signal number of SIGINT. -/
def SIGINT : Nat := 2

/-- Source lines 66-69: the shutdown handler.  It ignores `signum` and
`frame`, logs one fixed informational line, and calls `sys.exit(0)`. -/
def handle_shutdown (signum : Nat) (st : LogState) : LogState × Int :=
  (logInfoMsg st ("Received shutdown signal. Starting graceful shutdown..."), 0)

/-- Source lines 73-74: `handle_shutdown` is registered for SIGTERM and
SIGINT; every other signal keeps its default disposition. -/
def installedHandler (sig : Nat) : Option (Nat → LogState → LogState × Int) :=
  if sig = SIGTERM ∨ sig = SIGINT then some handle_shutdown else none

/-- Whether an event is an error-severity log line. -/
def isErrorLog : Event → Bool
| Event.logError _ => true
| _ => false

/-- Whether an event is an info-severity log line. -/
def isInfoLog : Event → Bool
| Event.logInfo _ => true
| _ => false

/-- The optional third startup log line (source lines 155-157): the path of
the first attached rotating file handler, when one is attached. -/
def fileLogLine (s : LogState) : List Event :=
  match s.handlers.filter isRotating with
  | [] => []
  | h :: _ => [Event.logInfo ("Log file: " ++ baseFilename h)]

/-- The log-file reconciliation only ever appends to the event trace. -/
theorem configureLogFile_events (fs : FileSys) (lf : Option String) (s : LogState) :
    ∃ t, (configureLogFile fs lf s).state.events = s.events ++ t := by
  cases lf with
  | none => exact ⟨[], by simp [configureLogFile, ConfigResult.state]⟩
  | some p =>
    by_cases hp : p = ""
    · subst hp
      exact ⟨_, by simp [configureLogFile, ConfigResult.state, removeFileHandlers]; rfl⟩
    · by_cases hm : fs.mkdir_parents_ok p
      · by_cases ho : fs.open_ok p
        · exact ⟨_, by simp [configureLogFile, hp, hm, ho, ConfigResult.state,
            removeFileHandlers, addHandler, List.append_assoc]; rfl⟩
        · exact ⟨_, by simp [configureLogFile, hp, hm, ho, ConfigResult.state,
            removeFileHandlers, List.append_assoc]; rfl⟩
      · exact ⟨_, by simp [configureLogFile, hp, hm, ConfigResult.state]; rfl⟩

/-- The `try` block only ever appends to the event trace. -/
theorem tryBlock_events (args : Args) (lvl : String) (sb : ServeBehavior) (s : LogState) :
    ∃ t, (tryBlock args lvl sb s).1.events = s.events ++ t := by
  unfold tryBlock
  cases hf : s.handlers.filter isRotating <;>
    cases sb <;>
      by_cases hd : toLowerStr lvl = "debug" <;>
        exact ⟨_, by simp [hf, hd, logInfoMsg, logErrorMsg, applyLevel,
          enableDebugNamespaces, setNamed, List.append_assoc]; rfl⟩

/-- Every run of the script, whatever its arguments, environment,
filesystem and serve behaviour, has the module-level setup events (the
attachment of both sinks included) as the initial segment of its trace. -/
theorem runMain_events (argv : List String) (env : Option String) (fs : FileSys)
    (sb : ServeBehavior) :
    ∃ t, (runMain argv env fs sb).state.events = initState.events ++ t := by
  simp only [runMain]
  cases hp : parse_args_from defaultArgs argv with
  | error e => exact ⟨[], by simp [Outcome.state, initState]⟩
  | ok args =>
    cases hc : configureLogFile fs args.log_file (moduleInit freshState) with
    | exn m st2 =>
      obtain ⟨t1, ht1⟩ := configureLogFile_events fs args.log_file (moduleInit freshState)
      rw [hc] at ht1
      simp only [ConfigResult.state] at ht1
      simp only [hc, Outcome.state]
      exact ⟨t1, ht1⟩
    | ok st2 =>
      obtain ⟨t1, ht1⟩ := configureLogFile_events fs args.log_file (moduleInit freshState)
      rw [hc] at ht1
      simp only [ConfigResult.state] at ht1
      obtain ⟨t2, ht2⟩ := tryBlock_events args (effective_log_level env args.log_level) sb st2
      refine ⟨t1 ++ t2, ?_⟩
      simp only [hc, Outcome.state]
      rw [ht2, ht1, List.append_assoc]
      rfl

/-- Claim C5, confirmed: a truthy DEBUG environment value (case-insensitive
"true", "1" or "yes") forces the effective level to debug regardless of the
CLI `--log-level` value; otherwise the effective level is the CLI value. -/
theorem C5_thm (debugEnv : Option String) (cli : String) :
    (toLowerStr (debugEnv.getD ("")) ∈ truthyDebug →
      effective_log_level debugEnv cli = "debug") ∧
    (toLowerStr (debugEnv.getD ("")) ∉ truthyDebug →
      effective_log_level debugEnv cli = cli) := by
  constructor <;> intro h <;> simp [effective_log_level, h]

/-- Witness for C5 at concrete inputs: `DEBUG=TRUE` with `--log-level info`
gives debug; no DEBUG variable with `--log-level warning` gives warning. -/
theorem C5_witness :
    effective_log_level (some ("TRUE")) "info" = "debug" ∧
    effective_log_level none ("warning") = ("warning") :=
  ⟨(C5_thm (some ("TRUE")) ("info")).1 (by decide),
   (C5_thm none ("warning")).2 (by decide)⟩

/-- Claim C3, counterexample: the installed shutdown handler behaves
identically for SIGINT and SIGTERM — the single informational line it logs
is a fixed text, so it does not identify which signal triggered the
shutdown, refuting the claim as stated. -/
theorem C3_counterexample :
    handle_shutdown SIGINT initState = handle_shutdown SIGTERM initState ∧
    (handle_shutdown SIGINT initState).1.events.filter isInfoLog =
      [Event.logInfo ("Received shutdown signal. Starting graceful shutdown...")] ∧
    (handle_shutdown SIGINT initState).2 = 0 :=
  ⟨rfl, by decide, rfl⟩

/-- Claim C3, amended: for every termination signal received, the installed
handler logs exactly one informational message — the fixed text "Received
shutdown signal. Starting graceful shutdown...", which does not identify
which signal triggered the shutdown — and terminates the process with exit
code 0; the same handler is registered for both SIGTERM and SIGINT. -/
theorem C3_thm (sig : Nat) (st : LogState) :
    (handle_shutdown sig st).2 = 0 ∧
    (handle_shutdown sig st).1.events =
      st.events ++ [Event.logInfo ("Received shutdown signal. Starting graceful shutdown...")] ∧
    handle_shutdown sig st = handle_shutdown SIGTERM st ∧
    installedHandler SIGTERM = some handle_shutdown ∧
    installedHandler SIGINT = some handle_shutdown := by
  refine ⟨rfl, rfl, rfl, ?_, ?_⟩ <;> simp [installedHandler, SIGTERM, SIGINT]

/-- Claim C1, counterexample: argument parsing does not reject
`--port 99999`.  It succeeds with port 99999; the run with that port
proceeds past parsing all the way to the serve call (so when serve raises,
the process exits 1 via the error path, not with a usage exit); and the
file-sink attachment event is already in the trace of that run. -/
theorem C1_counterexample :
    parse_args_from defaultArgs ["--port", "99999"] =
      Except.ok { defaultArgs with port := 99999 } ∧
    (runMain ["--port", "99999"] none fsAll
      (ServeBehavior.raises ("address out of range"))).exitCode = some 1 ∧
    Event.addHandler file_handler.kind ∈
      (runMain ["--port", "99999"] none fsAll
        (ServeBehavior.raises ("address out of range"))).state.events :=
  ⟨rfl, by decide, by decide⟩

/-- Claim C1, amended: `--port` is parsed with `type=int` only — every value
that parses as an integer is accepted, with no 1-65535 range validation —
and both sinks are attached at module import time, before argument parsing
runs: every run of the script, whatever its argv, carries the module-level
sink-attachment events at the start of its trace. -/
theorem C1_thm (v : String) (n : Int) (h : int_of_string v = some n) :
    parse_args_from defaultArgs ["--port", v] = Except.ok { defaultArgs with port := n } ∧
    ∀ argv env fs sb, ∃ t,
      (runMain argv env fs sb).state.events = initState.events ++ t := by
  constructor
  · have h1 : parse_args_from defaultArgs ["--port", v]
        = match int_of_string v with
          | some m => parse_args_from { defaultArgs with port := m } []
          | none => Except.error ("argument --port: invalid int value: " ++ v) := rfl
    rw [h1, h]
    rfl
  · exact fun argv env fs sb => runMain_events argv env fs sb

/-- Witness for C1 at the concrete input of the claim: `--port 99999`. -/
theorem C1_witness :
    parse_args_from defaultArgs ["--port", "99999"] =
      Except.ok { defaultArgs with port := 99999 } ∧
    ∀ argv env fs sb, ∃ t,
      (runMain argv env fs sb).state.events = initState.events ++ t :=
  C1_thm ("99999") 99999 (by decide)

/-- Claim C2, counterexample: with a filesystem where the parent directory
of `custom/x.log` can be created but the log file cannot be opened, the run
crashes with an uncaught exception (there is no graceful FileSystemError
path and no error line is logged through the pipeline), and at that moment
the previously attached default file sink has already been removed and
closed — zero rotating sinks remain attached, refuting "the previous sink
remains attached and usable, no partial replacement". -/
theorem C2_counterexample :
    (runMain ["--log-file", "custom/x.log"] none fsOpenFail ServeBehavior.returns).isCrashed
      = true ∧
    countRotating
      (runMain ["--log-file", "custom/x.log"] none fsOpenFail ServeBehavior.returns).state = 0 ∧
    Event.closeHandler file_handler.kind ∈
      (runMain ["--log-file", "custom/x.log"] none fsOpenFail ServeBehavior.returns).state.events ∧
    ((runMain ["--log-file", "custom/x.log"] none fsOpenFail
        ServeBehavior.returns).state.events.any isErrorLog) = false :=
  ⟨by decide, by decide, by decide, by decide⟩

/-- Claim C2, amended: when the new rotating sink cannot be opened (parent
directories creatable, open fails), the OSError propagates uncaught out of
the reconciliation — the run crashes before reaching the guarded serve call
and nothing is logged at error severity — and the previously attached file
sink has already been removed and closed, so a partial replacement does
occur: zero rotating sinks remain attached. -/
theorem C2_thm (p : String) (fs : FileSys) (env : Option String) (sb : ServeBehavior)
    (hp : p ≠ "") (hm : fs.mkdir_parents_ok p = true) (ho : fs.open_ok p = false) :
    (runMain ["--log-file", p] env fs sb).isCrashed = true ∧
    countRotating (runMain ["--log-file", p] env fs sb).state = 0 ∧
    Event.closeHandler file_handler.kind ∈ (runMain ["--log-file", p] env fs sb).state.events ∧
    ((runMain ["--log-file", p] env fs sb).state.events.any isErrorLog) = false := by
  have hparse : parse_args_from defaultArgs ["--log-file", p] =
      Except.ok { defaultArgs with log_file := some p } := rfl
  refine ⟨?_, ?_, ?_, ?_⟩ <;>
    simp [runMain, hparse, configureLogFile, hp, hm, ho, Outcome.state, Outcome.isCrashed,
      countRotating, removeFileHandlers, moduleInit, addHandler, freshState, initState,
      console_handler, file_handler, isRotating, isErrorLog]

/-- Witness for C2 at the concrete inputs of its counterexample. -/
theorem C2_witness :
    (runMain ["--log-file", "custom/x.log"] none fsOpenFail ServeBehavior.returns).isCrashed
      = true ∧
    countRotating
      (runMain ["--log-file", "custom/x.log"] none fsOpenFail ServeBehavior.returns).state = 0 :=
  ⟨(C2_thm ("custom/x.log") fsOpenFail none ServeBehavior.returns (by decide) rfl rfl).1,
   (C2_thm ("custom/x.log") fsOpenFail none ServeBehavior.returns (by decide) rfl rfl).2.1⟩

/-- Claim C6, confirmed: when serve() raises an exception the script logs
it at error severity as "Failed to start server: ..." and exits with code
1; when serve() returns normally the script falls through to a normal exit
with code 0. -/
theorem C6_thm (argv : List String) (env : Option String) (fs : FileSys) (args : Args)
    (st2 : LogState) (msg : String)
    (hparse : parse_args_from defaultArgs argv = Except.ok args)
    (hconf : configureLogFile fs args.log_file (moduleInit freshState) = ConfigResult.ok st2) :
    (∃ st3, runMain argv env fs (ServeBehavior.raises msg) = Outcome.exited 1 st3 ∧
       Event.logError ("Failed to start server: " ++ msg) ∈ st3.events) ∧
    (∃ st4, runMain argv env fs ServeBehavior.returns = Outcome.exited 0 st4) := by
  constructor
  · refine ⟨(tryBlock args (effective_log_level env args.log_level)
        (ServeBehavior.raises msg) st2).1, ?_, ?_⟩
    · simp only [runMain, hparse, hconf]
      rfl
    · simp [tryBlock, logErrorMsg]
  · refine ⟨(tryBlock args (effective_log_level env args.log_level)
        ServeBehavior.returns st2).1, ?_⟩
    simp only [runMain, hparse, hconf]
    rfl

/-- Witness for C6 at concrete inputs: a default-argument run in which
serve raises, and one in which it returns. -/
theorem C6_witness :
    (∃ st3, runMain [] none fsAll (ServeBehavior.raises ("boom")) = Outcome.exited 1 st3 ∧
       Event.logError ("Failed to start server: " ++ "boom") ∈ st3.events) ∧
    (∃ st4, runMain [] none fsAll ServeBehavior.returns = Outcome.exited 0 st4) :=
  C6_thm [] none fsAll defaultArgs (moduleInit freshState) "boom" rfl rfl

/-- Claim C4, counterexample: in the run `--log-level debug`, the first
startup informational line sits at trace index 5 while the application of
the effective level to the root logger (`setRootLevel DEBUG`) sits at index
8 — the startup lines are logged BEFORE set_level is applied, refuting the
claimed order. -/
theorem C4_counterexample :
    (runMain ["--log-level", "debug"] none fsAll ServeBehavior.returns).state.events.findIdx?
        (fun e => decide (e = Event.logInfo ("Starting DeerFlow API server on localhost:8000")))
      = some 5 ∧
    (runMain ["--log-level", "debug"] none fsAll ServeBehavior.returns).state.events.findIdx?
        (fun e => decide (e = Event.setRootLevel DEBUG)) = some 8 ∧
    (5 : Nat) < 8 :=
  ⟨by decide, by decide, by decide⟩

/-- Claim C4, amended: the order is the reverse of the claim — the two
informational startup lines (bind address and effective level), plus the
file-sink path line when a file sink is attached, are logged first, and
only afterwards is `set_level(effective_level)` applied to the root logger
and to every attached sink. -/
theorem C4_thm (args : Args) (lvl : String) (sb : ServeBehavior) (s : LogState) :
    ∃ rest,
      (tryBlock args lvl sb s).1.events =
        s.events
        ++ [Event.logInfo ("Starting DeerFlow API server on " ++ args.host ++ ":"
              ++ toString args.port),
            Event.logInfo ("Log level: " ++ toUpperStr lvl)]
        ++ fileLogLine s
        ++ Event.setRootLevel (numeric_level lvl) ::
             s.handlers.map (fun h => Event.setHandlerLevel h.kind (numeric_level lvl))
        ++ rest := by
  unfold tryBlock fileLogLine
  cases hf : s.handlers.filter isRotating <;>
    cases sb <;>
      by_cases hd : toLowerStr lvl = "debug" <;>
        exact ⟨_, by simp [hf, hd, logInfoMsg, logErrorMsg, applyLevel,
          enableDebugNamespaces, setNamed, List.append_assoc]; rfl⟩

/-- Claim C9, confirmed: for every prior sink state, `--log-file ""` takes
the disable branch, which removes every rotating-file sink — zero remain
attached afterwards — and traces a remove event and a close event for each
one that was attached. -/
theorem C9_thm (s : LogState) (fs : FileSys) :
    configureLogFile fs (some ("")) s = ConfigResult.ok (removeFileHandlers s) ∧
    countRotating (removeFileHandlers s) = 0 ∧
    ∀ h ∈ s.handlers, isRotating h = true →
      Event.removeHandler h.kind ∈ (removeFileHandlers s).events ∧
      Event.closeHandler h.kind ∈ (removeFileHandlers s).events := by
  refine ⟨rfl, ?_, ?_⟩
  · simp [countRotating, removeFileHandlers, List.filter_filter]
  · intro h hmem hrot
    have hf : h ∈ s.handlers.filter isRotating := by
      simp [List.mem_filter, hmem, hrot]
    constructor
    · refine List.mem_append_right _ ?_
      exact List.mem_flatMap.mpr ⟨h, hf, by simp⟩
    · refine List.mem_append_right _ ?_
      exact List.mem_flatMap.mpr ⟨h, hf, by simp⟩

/-- Witness for C9 at the concrete module-init state, whose default file
sink is removed and closed. -/
theorem C9_witness :
    configureLogFile fsAll (some ("")) initState = ConfigResult.ok (removeFileHandlers initState) ∧
    countRotating (removeFileHandlers initState) = 0 ∧
    Event.removeHandler file_handler.kind ∈ (removeFileHandlers initState).events ∧
    Event.closeHandler file_handler.kind ∈ (removeFileHandlers initState).events := by
  obtain ⟨h1, h2, h3⟩ := C9_thm initState fsAll
  obtain ⟨h4, h5⟩ := h3 file_handler (by decide) rfl
  exact ⟨h1, h2, h4, h5⟩

/-- Claim C7, confirmed: after module init at most one rotating sink is
attached; after the `--log-file` reconciliation (absent, empty or custom
path, on any filesystem, also in the state an escaping exception leaves
behind) at most one rotating sink is attached; and when a non-empty custom
path is given (and the reconciliation reaches the replacement, i.e. the
parent directories are creatable), the previously attached default file
sink is closed, not leaked. -/
theorem C7_thm (fs : FileSys) (lf : Option String) :
    countRotating initState ≤ 1 ∧
    countRotating (configureLogFile fs lf initState).state ≤ 1 ∧
    ∀ p, lf = some p → p ≠ "" → fs.mkdir_parents_ok p = true →
      Event.closeHandler file_handler.kind ∈ (configureLogFile fs lf initState).state.events := by
  refine ⟨by decide, ?_, ?_⟩
  · cases lf with
    | none =>
      show countRotating initState ≤ 1
      decide
    | some p =>
      by_cases hp : p = ""
      · subst hp
        show countRotating (removeFileHandlers initState) ≤ 1
        decide
      · by_cases hm : fs.mkdir_parents_ok p
        · by_cases ho : fs.open_ok p
          · simp [configureLogFile, hp, hm, ho, ConfigResult.state, countRotating,
              addHandler, removeFileHandlers, initState, moduleInit, freshState,
              console_handler, file_handler, isRotating]
          · simp [configureLogFile, hp, hm, ho, ConfigResult.state, countRotating,
              addHandler, removeFileHandlers, initState, moduleInit, freshState,
              console_handler, file_handler, isRotating]
        · simp only [configureLogFile, hp, hm]
          simp [ConfigResult.state]
          decide
  · intro p hlf hp hm
    subst hlf
    by_cases ho : fs.open_ok p
    · simp [configureLogFile, hp, hm, ho, ConfigResult.state, addHandler,
        removeFileHandlers, initState, moduleInit, freshState,
        console_handler, file_handler, isRotating]
    · simp [configureLogFile, hp, hm, ho, ConfigResult.state, addHandler,
        removeFileHandlers, initState, moduleInit, freshState,
        console_handler, file_handler, isRotating]

/-- Witness for C7 at a concrete custom path on a fully-writable
filesystem. -/
theorem C7_witness :
    countRotating (configureLogFile fsAll (some ("c.log")) initState).state ≤ 1 ∧
    Event.closeHandler file_handler.kind ∈
      (configureLogFile fsAll (some ("c.log")) initState).state.events :=
  ⟨(C7_thm fsAll (some ("c.log"))).2.1,
   (C7_thm fsAll (some ("c.log"))).2.2 ("c.log") rfl (by decide) rfl⟩

/-- Claim C8, confirmed: when the effective level is debug — whether forced
by the environment override or chosen on the CLI — exactly the three
allow-listed namespaces src, langchain and langgraph are set to DEBUG, and
every other named logger keeps its previous level setting. -/
theorem C8_thm (env : Option String) (cli : String) (args : Args) (sb : ServeBehavior)
    (s : LogState) (hd : effective_log_level env cli = "debug") :
    namedLevel (tryBlock args (effective_log_level env cli) sb s).1 ("src") = some DEBUG ∧
    namedLevel (tryBlock args (effective_log_level env cli) sb s).1 ("langchain") = some DEBUG ∧
    namedLevel (tryBlock args (effective_log_level env cli) sb s).1 ("langgraph") = some DEBUG ∧
    ∀ nm, nm ≠ "src" → nm ≠ "langchain" → nm ≠ "langgraph" →
      namedLevel (tryBlock args (effective_log_level env cli) sb s).1 nm = namedLevel s nm := by
  rw [hd]
  have hdd : toLowerStr ("debug") = "debug" := by decide
  refine ⟨?_, ?_, ?_, ?_⟩
  · unfold tryBlock
    cases hf : s.handlers.filter isRotating <;> cases sb <;>
      simp [hf, hdd, namedLevel, logInfoMsg, logErrorMsg, applyLevel,
        enableDebugNamespaces, setNamed]
  · unfold tryBlock
    cases hf : s.handlers.filter isRotating <;> cases sb <;>
      simp [hf, hdd, namedLevel, logInfoMsg, logErrorMsg, applyLevel,
        enableDebugNamespaces, setNamed]
  · unfold tryBlock
    cases hf : s.handlers.filter isRotating <;> cases sb <;>
      simp [hf, hdd, namedLevel, logInfoMsg, logErrorMsg, applyLevel,
        enableDebugNamespaces, setNamed]
  · intro nm h1 h2 h3
    unfold tryBlock
    cases hf : s.handlers.filter isRotating <;> cases sb <;>
      simp [hf, hdd, namedLevel, logInfoMsg, logErrorMsg, applyLevel,
        enableDebugNamespaces, setNamed, h1, h2, h3]

/-- Witness for C8: the environment override DEBUG=1 with `--log-level info`
yields debug, the three namespaces are lowered, and an unrelated namespace
(urllib3) keeps its unset level. -/
theorem C8_witness :
    namedLevel (tryBlock defaultArgs (effective_log_level (some ("1")) "info")
        ServeBehavior.returns initState).1 ("src") = some DEBUG ∧
    namedLevel (tryBlock defaultArgs (effective_log_level (some ("1")) "info")
        ServeBehavior.returns initState).1 ("urllib3") = namedLevel initState ("urllib3") := by
  obtain ⟨h1, h2, h3, h4⟩ :=
    C8_thm (some ("1")) ("info") defaultArgs ServeBehavior.returns initState (by decide)
  exact ⟨h1, h4 ("urllib3") (by decide) (by decide) (by decide)⟩

/-- The handlers attached after the try block are exactly the handlers
attached before it, each with its level set to the numeric effective level
(the try block adds or removes no handler and changes no formatter). -/
theorem tryBlock_handlers (args : Args) (lvl : String) (sb : ServeBehavior) (st : LogState) :
    (tryBlock args lvl sb st).1.handlers
      = st.handlers.map (fun h => { h with level := numeric_level lvl }) := by
  unfold tryBlock
  cases hf : st.handlers.filter isRotating <;> cases sb <;>
    by_cases hd : toLowerStr lvl = "debug" <;>
      simp [hf, hd, logInfoMsg, logErrorMsg, applyLevel, enableDebugNamespaces, setNamed]

/-- Claim C10, confirmed: whatever `--log-file` value the reconciliation
runs with, the console sink attached at startup is still attached
afterwards with its formatter unchanged (it is the only non-rotating sink),
and after the try block it is still attached, unchanged except for its
minimum level, which set_level moved to the numeric effective level. -/
theorem C10_thm (fs : FileSys) (lf : Option String) (lvl : String) (args : Args)
    (sb : ServeBehavior) :
    console_handler ∈ (configureLogFile fs lf initState).state.handlers ∧
    (∀ h ∈ (configureLogFile fs lf initState).state.handlers,
       isRotating h = false → h = console_handler) ∧
    { console_handler with level := numeric_level lvl } ∈
      (tryBlock args lvl sb (configureLogFile fs lf initState).state).1.handlers ∧
    (∀ h ∈ (tryBlock args lvl sb (configureLogFile fs lf initState).state).1.handlers,
       isRotating h = false → h = { console_handler with level := numeric_level lvl }) := by
  have hh : (configureLogFile fs lf initState).state.handlers = [console_handler, file_handler]
      ∨ (configureLogFile fs lf initState).state.handlers = [console_handler]
      ∨ ∃ p, (configureLogFile fs lf initState).state.handlers =
          [console_handler,
           { kind := HandlerKind.rotatingFile p (10 * 1024 * 1024) 5,
             level := INFO, fmt := log_format, datefmt := date_format }] := by
    cases lf with
    | none => left; rfl
    | some p =>
      by_cases hp : p = ""
      · subst hp; right; left; rfl
      · by_cases hm : fs.mkdir_parents_ok p
        · by_cases ho : fs.open_ok p
          · right; right
            exact ⟨p, by simp [configureLogFile, hp, hm, ho, ConfigResult.state,
              addHandler, removeFileHandlers, initState, moduleInit, freshState,
              console_handler, file_handler, isRotating]⟩
          · right; left
            simp [configureLogFile, hp, hm, ho, ConfigResult.state, addHandler,
              removeFileHandlers, initState, moduleInit, freshState,
              console_handler, file_handler, isRotating]
        · left
          simp only [configureLogFile, hp, hm]
          simp [ConfigResult.state]
          rfl
  rw [tryBlock_handlers]
  rcases hh with hh | hh | ⟨p, hh⟩
  · rw [hh]
    refine ⟨by simp, ?_, by simp, ?_⟩
    · intro h hm hr
      simp at hm
      rcases hm with rfl | rfl
      · rfl
      · simp [isRotating, file_handler] at hr
    · intro h hm hr
      simp at hm
      rcases hm with rfl | rfl
      · rfl
      · simp [isRotating, file_handler] at hr
  · rw [hh]
    refine ⟨by simp, ?_, by simp, ?_⟩
    · intro h hm hr
      simp at hm
      subst hm
      rfl
    · intro h hm hr
      simp at hm
      subst hm
      rfl
  · rw [hh]
    refine ⟨by simp, ?_, by simp, ?_⟩
    · intro h hm hr
      simp at hm
      rcases hm with rfl | rfl
      · rfl
      · simp [isRotating] at hr
    · intro h hm hr
      simp at hm
      rcases hm with rfl | rfl
      · rfl
      · simp [isRotating] at hr

/-- Witness for C10 with a concrete custom path and effective level debug. -/
theorem C10_witness :
    console_handler ∈ (configureLogFile fsAll (some ("c.log")) initState).state.handlers ∧
    console_handler = console_handler ∧
    { console_handler with level := DEBUG } ∈
      (tryBlock defaultArgs ("debug") ServeBehavior.returns
        (configureLogFile fsAll (some ("c.log")) initState).state).1.handlers := by
  obtain ⟨h1, h2, h3, h4⟩ :=
    C10_thm fsAll (some ("c.log")) ("debug") defaultArgs ServeBehavior.returns
  exact ⟨h1, h2 console_handler h1 rfl, h3⟩

end AcademicAgent
